import Mathlib

/-!
Verification development for the lunara backend core logic.

The definitions below are a shallow embedding of the JavaScript source:
  * src/utils/helpers.js    (calculateCyclePhase, formatSuccessResponse, formatErrorResponse)
  * src/utils/constants.js  (CYCLE_PHASES, DEFAULTS, HTTP_STATUS)
  * src/middleware/validation.js (sanitizeRequestBody)
  * src/middleware/auth.js  (authenticateUser)
  * src/services/firebase.js (verifyIdToken wrapper)
  * src/services/firestore.js (per-collection document operations)
  * src/routes/health.js, src/routes/ai.js (route handlers)

Modelling conventions: JavaScript numbers appearing in the phase
computation are modelled as Int together with an explicit NaN point
(JsNum), since an unparseable date yields NaN and NaN comparisons are
always false.  Falsy field values (absent, null, 0, empty string) are
modelled with Option; a field that is present but 0 is kept distinct
where the source's truthiness tests can see the difference.  The
document store is an association list from document id to document.
Server timestamps (created_at, updated_at, read_at) and string trimming
are outside the model; the db-unavailable guard at the top of every
route (responds 500 before any logic runs) is likewise outside the
store model, so the handlers below describe requests that reach an
initialized store.
-/

namespace Lunara

/-- The closed output domain of the classifier (constants.js CYCLE_PHASES). -/
inductive Phase where
  | menstrual
  | follicular
  | ovulation
  | luteal
  | new_cycle
  | unknown
  deriving DecidableEq, Repr

/-- constants.js DEFAULTS object. -/
structure DefaultsObj where
  CYCLE_LENGTH : Int
  PERIOD_DURATION : Int
  INSIGHT_EXPIRY_DAYS : Int
  DEFAULT_LIMIT : Int
  MAX_INSIGHT_TOKENS : Int

def DEFAULTS : DefaultsObj :=
  { CYCLE_LENGTH := 28
    PERIOD_DURATION := 5
    INSIGHT_EXPIRY_DAYS := 7
    DEFAULT_LIMIT := 50
    MAX_INSIGHT_TOKENS := 300 }

/-- constants.js HTTP_STATUS object. -/
structure HttpStatusObj where
  OK : Nat
  CREATED : Nat
  BAD_REQUEST : Nat
  UNAUTHORIZED : Nat
  FORBIDDEN : Nat
  NOT_FOUND : Nat
  INTERNAL_SERVER_ERROR : Nat

def HTTP_STATUS : HttpStatusObj :=
  { OK := 200
    CREATED := 201
    BAD_REQUEST := 400
    UNAUTHORIZED := 401
    FORBIDDEN := 403
    NOT_FOUND := 404
    INTERNAL_SERVER_ERROR := 500 }

/-- A truthy start_date value as seen by new Date(...): either it parses
to an epoch-millisecond timestamp or it is unparseable (NaN date). -/
inductive StartDate where
  | valid (epochMs : Int)
  | invalid
  deriving DecidableEq, Repr

/-- The cycle fields read by calculateCyclePhase.  A field is none when
it is absent or falsy for the truthiness test on line 9 of helpers.js
(start_date) or carries no numeric value. -/
structure Cycle where
  start_date : Option StartDate := none
  cycle_length : Option Int := none
  period_duration : Option Int := none
  deriving DecidableEq, Repr

/-- A JavaScript number that is either an integer or NaN. -/
inductive JsNum where
  | nan
  | val (n : Int)
  deriving DecidableEq, Repr

/-- JavaScript comparison x <= k: false whenever x is NaN. -/
def jsLe : JsNum → Int → Bool
  | JsNum.nan, _ => false
  | JsNum.val d, k => decide (d ≤ k)

/-- JavaScript a || b on an optional numeric field: the default applies
when the field is absent or 0 (both falsy). -/
def jsOrInt : Option Int → Int → Int
  | none, dflt => dflt
  | some n, dflt => if n = 0 then dflt else n

/-- helpers.js line 11: Math.floor((now - new Date(start)) / 86400000),
with an unparseable start date producing NaN. -/
def daysSinceStart (now : Int) : StartDate → JsNum
  | StartDate.valid ms => JsNum.val ((now - ms).fdiv 86400000)
  | StartDate.invalid => JsNum.nan

/-- helpers.js calculateCyclePhase.  The ambient new Date() of the source
is injected as the explicit parameter now (epoch milliseconds). -/
def calculateCyclePhase (now : Int) (cycle : Option Cycle) : Phase :=
  match cycle with
  | none => Phase.unknown
  | some c =>
    match c.start_date with
    | none => Phase.unknown
    | some sd =>
      let daysSince := daysSinceStart now sd
      let cycleLength := jsOrInt c.cycle_length DEFAULTS.CYCLE_LENGTH
      let periodDuration := jsOrInt c.period_duration DEFAULTS.PERIOD_DURATION
      if jsLe daysSince periodDuration then Phase.menstrual
      else if jsLe daysSince 13 then Phase.follicular
      else if jsLe daysSince 15 then Phase.ovulation
      else if jsLe daysSince cycleLength then Phase.luteal
      else Phase.new_cycle

/-- The phase table as the specification words it (spec section 4.1),
over an integer day count d and the configured durations.  Written from
the spec, to be compared with calculateCyclePhase. -/
def specPhaseTable (d periodDuration cycleLength : Int) : Phase :=
  if d ≤ periodDuration then Phase.menstrual
  else if d ≤ 13 then Phase.follicular
  else if d ≤ 15 then Phase.ovulation
  else if d ≤ cycleLength then Phase.luteal
  else Phase.new_cycle

/-- C2 counterexample: the claim's table defaults only on an absent
length, so at a record storing period_duration = 0 (creatable through
the API, whose range validation skips falsy values) with d = 3 it
demands follicular, while the code's falsy-or default turns the stored
0 into 5 and returns menstrual. -/
theorem calculateCyclePhase_zero_duration_counterexample :
    calculateCyclePhase (3 * 86400000)
        (some { start_date := some (StartDate.valid 0), cycle_length := some 28,
                period_duration := some 0 }) = Phase.menstrual ∧
    specPhaseTable (((3 * 86400000 : Int) - 0).fdiv 86400000)
        ((some (0 : Int)).getD DEFAULTS.PERIOD_DURATION)
        ((some (28 : Int)).getD DEFAULTS.CYCLE_LENGTH) = Phase.follicular := by
  decide

/-- C2 as amended: for a cycle with a parseable start date, the
classifier agrees with the spec's first-match table at d = floor of
elapsed days, where cycle_length stands in the table unless it is
absent or zero (then 28) and period_duration unless it is absent or
zero (then 5); a missing cycle or a missing start date yields unknown. -/
theorem calculateCyclePhase_matches_falsy_default_table (now ms : Int) (cl pd : Option Int) :
    calculateCyclePhase now
        (some { start_date := some (StartDate.valid ms), cycle_length := cl, period_duration := pd }) =
      specPhaseTable ((now - ms).fdiv 86400000) (jsOrInt pd DEFAULTS.PERIOD_DURATION)
        (jsOrInt cl DEFAULTS.CYCLE_LENGTH) ∧
    calculateCyclePhase now none = Phase.unknown ∧
    (∀ c : Cycle, c.start_date = none → calculateCyclePhase now (some c) = Phase.unknown) := by
  refine ⟨?_, rfl, ?_⟩
  · simp only [calculateCyclePhase, daysSinceStart, specPhaseTable, jsLe, decide_eq_true_eq]
  · intro c hc
    simp [calculateCyclePhase, hc]

/-- C7: on every input the classifier returns one of the six phases of
the closed set; being a total Lean function of this inductive codomain,
it cannot throw or produce anything else. -/
theorem calculateCyclePhase_closed_set (now : Int) (cycle : Option Cycle) :
    calculateCyclePhase now cycle = Phase.menstrual ∨
    calculateCyclePhase now cycle = Phase.follicular ∨
    calculateCyclePhase now cycle = Phase.ovulation ∨
    calculateCyclePhase now cycle = Phase.luteal ∨
    calculateCyclePhase now cycle = Phase.new_cycle ∨
    calculateCyclePhase now cycle = Phase.unknown := by
  cases h : calculateCyclePhase now cycle <;> simp

/-- C8: the classifier is a pure function of the cycle record and the
injected reference instant; two calls with identical inputs yield
identical output. -/
theorem calculateCyclePhase_deterministic (now1 now2 : Int) (c1 c2 : Option Cycle)
    (hnow : now1 = now2) (hc : c1 = c2) :
    calculateCyclePhase now1 c1 = calculateCyclePhase now2 c2 := by
  rw [hnow, hc]

/-- Witness for C8 at a concrete repeated input. -/
theorem calculateCyclePhase_deterministic_witness :
    calculateCyclePhase 1000000 (some { start_date := some (StartDate.valid 0) }) =
      calculateCyclePhase 1000000 (some { start_date := some (StartDate.valid 0) }) :=
  calculateCyclePhase_deterministic 1000000 1000000
    (some { start_date := some (StartDate.valid 0) })
    (some { start_date := some (StartDate.valid 0) }) rfl rfl

/-- C10: a present but unparseable start date makes every comparison on
the NaN day count false, so control falls through to new_cycle; and the
classifier returns unknown exactly when the cycle or its start_date
field is absent. -/
theorem calculateCyclePhase_invalid_date_new_cycle (now : Int) :
    (∀ cl pd : Option Int,
        calculateCyclePhase now
            (some { start_date := some StartDate.invalid, cycle_length := cl,
                    period_duration := pd }) = Phase.new_cycle) ∧
    (∀ c : Option Cycle,
        calculateCyclePhase now c = Phase.unknown ↔
          c = none ∨ ∃ cy, c = some cy ∧ cy.start_date = none) := by
  constructor
  · intro cl pd
    simp [calculateCyclePhase, daysSinceStart, jsLe]
  · intro c
    constructor
    · intro h
      cases c with
      | none => exact Or.inl rfl
      | some cy =>
        refine Or.inr ⟨cy, rfl, ?_⟩
        cases hsd : cy.start_date with
        | none => rfl
        | some sd =>
          exfalso
          simp only [calculateCyclePhase, hsd] at h
          split at h <;> simp_all
          split at h <;> simp_all
          split at h <;> simp_all
          split at h <;> simp_all
    · rintro (rfl | ⟨cy, rfl, hsd⟩)
      · rfl
      · simp [calculateCyclePhase, hsd]

/-- Witness for C10 at concrete inputs: an unparseable start date gives
new_cycle, and an absent cycle gives unknown. -/
theorem calculateCyclePhase_invalid_date_new_cycle_witness :
    calculateCyclePhase 0
        (some { start_date := some StartDate.invalid, cycle_length := some 28,
                period_duration := some 5 }) = Phase.new_cycle ∧
    calculateCyclePhase 0 none = Phase.unknown :=
  ⟨(calculateCyclePhase_invalid_date_new_cycle 0).1 (some 28) (some 5),
   ((calculateCyclePhase_invalid_date_new_cycle 0).2 none).mpr (Or.inl rfl)⟩

/-! ## Document store (firestore.js)

Each collection is an association list from a store-generated document
id to the stored document. -/

/-- Fetch a document by id (doc(id).get(); none when it does not exist). -/
def getDoc {α : Type} : List (String × α) → String → Option α
  | [], _ => none
  | (k, v) :: rest, id => if k = id then some v else getDoc rest id

/-- Insert a document under a store-generated fresh id (collection.add). -/
def addDoc {α : Type} (db : List (String × α)) (id : String) (doc : α) :
    List (String × α) :=
  (id, doc) :: db

/-- Merge fields into the document with the given id (doc(id).update). -/
def updateDoc {α : Type} (db : List (String × α)) (id : String) (f : α → α) :
    List (String × α) :=
  db.map fun p => if p.1 = id then (p.1, f p.2) else p

/-- Remove the document with the given id (doc(id).delete()). -/
def deleteDoc {α : Type} (db : List (String × α)) (id : String) :
    List (String × α) :=
  db.filter fun p => p.1 != id

/-! ## Request bodies and sanitization (validation.js) -/

/-- A parsed JSON request body: the dangerous bookkeeping fields that
sanitizeRequestBody strips, plus the entity payload.  A none field is
absent from the JSON object. -/
structure ReqBody (α : Type) where
  _id : Option String := none
  id : Option String := none
  user_id : Option String := none
  created_at : Option String := none
  updated_at : Option String := none
  payload : α
  deriving DecidableEq, Repr

/-- validation.js sanitizeRequestBody: deletes _id, id, user_id,
created_at and updated_at from the body (string trimming of the
remaining values is outside this model). -/
def sanitizeRequestBody {α : Type} (b : ReqBody α) : ReqBody α :=
  { b with _id := none, id := none, user_id := none, created_at := none, updated_at := none }

/-- JavaScript object-literal key collision: in merging two sources of
one key, the later entry wins and an absent later entry keeps the
earlier one. -/
def spreadOverride {α : Type} (first later : Option α) : Option α :=
  match later with
  | some v => some v
  | none => first

/-! ## Stored documents -/

/-- A stored cycle document: owner identity plus the classifier fields. -/
structure CycleRecord where
  user_id : String
  data : Cycle
  deriving DecidableEq, Repr

/-- Payload fields of a nutrition log relevant to the model. -/
structure NutritionPayload where
  log_date : Option StartDate := none
  meal_type : Option String := none
  calories : Option Int := none
  deriving DecidableEq, Repr

/-- A stored nutrition log document. -/
structure NutritionRecord where
  user_id : String
  data : NutritionPayload
  deriving DecidableEq, Repr

/-- Payload fields of a fitness log relevant to the model. -/
structure FitnessPayload where
  activity_type : Option String := none
  duration_minutes : Option Int := none
  deriving DecidableEq, Repr

/-- A stored fitness log document. -/
structure FitnessRecord where
  user_id : String
  data : FitnessPayload
  deriving DecidableEq, Repr

/-- Payload fields of a mental health log relevant to the model. -/
structure MentalHealthPayload where
  mood_rating : Option Int := none
  stress_level : Option Int := none
  deriving DecidableEq, Repr

/-- A stored mental health log document. -/
structure MentalHealthRecord where
  user_id : String
  data : MentalHealthPayload
  deriving DecidableEq, Repr

/-- A stored AI insight document. -/
structure InsightRecord where
  user_id : String
  is_read : Bool := false
  insight_type : Option String := none
  content : Option String := none
  deriving DecidableEq, Repr

abbrev CycleStore := List (String × CycleRecord)
abbrev NutritionStore := List (String × NutritionRecord)
abbrev FitnessStore := List (String × FitnessRecord)
abbrev MentalHealthStore := List (String × MentalHealthRecord)
abbrev InsightStore := List (String × InsightRecord)

/-! ## Response envelope (helpers.js formatters plus the HTTP status
set by res.status; the ISO timestamp field is outside the model) -/

/-- An HTTP response as the client sees it: the envelope's success flag
and message together with the status code. -/
structure Response (α : Type) where
  success : Bool
  statusCode : Nat
  message : String
  data : Option α := none
  deriving DecidableEq, Repr

/-- helpers.js formatSuccessResponse, tagged with the status the route
passes to res.status. -/
def formatSuccessResponse {α : Type} (data : Option α) (message : String)
    (status : Nat) : Response α :=
  { success := true, statusCode := status, message := message, data := data }

/-- helpers.js formatErrorResponse. -/
def formatErrorResponse {α : Type} (message : String) (status : Nat) : Response α :=
  { success := false, statusCode := status, message := message, data := none }

/-! ## firestore.js per-collection services -/

/-- firestore.js saveCycle: add({ user_id: userId, ...cycleData, ... }).
Because the spread comes after the explicit key, a user_id inside
cycleData overrides the first entry.  Returns the saved document (the
source returns { id, ...cycleData }) and the grown store. -/
def saveCycle (db : CycleStore) (freshId userId : String) (cycleData : ReqBody Cycle) :
    CycleRecord × CycleStore :=
  let doc : CycleRecord :=
    { user_id := (spreadOverride (some userId) cycleData.user_id).getD userId
      data := cycleData.payload }
  (doc, addDoc db freshId doc)

/-- firestore.js getCycleById: doc.exists ? { id, ...data } : null. -/
def getCycleById (db : CycleStore) (cycleId : String) : Option CycleRecord :=
  getDoc db cycleId

/-- firestore.js updateCycle: doc(cycleId).update({ ...updateData, ... });
fields present in the update data replace the stored ones. -/
def updateCycle (db : CycleStore) (cycleId : String) (b : ReqBody Cycle) : CycleStore :=
  updateDoc db cycleId fun old =>
    { user_id := (spreadOverride (some old.user_id) b.user_id).getD old.user_id
      data :=
        { start_date := spreadOverride old.data.start_date b.payload.start_date
          cycle_length := spreadOverride old.data.cycle_length b.payload.cycle_length
          period_duration := spreadOverride old.data.period_duration b.payload.period_duration } }

/-- firestore.js deleteCycle: doc(cycleId).delete(). -/
def deleteCycle (db : CycleStore) (cycleId : String) : CycleStore :=
  deleteDoc db cycleId

/-- firestore.js saveNutritionLog: add({ user_id: userId, ...nutritionData, ... }). -/
def saveNutritionLog (db : NutritionStore) (freshId userId : String)
    (nutritionData : ReqBody NutritionPayload) : NutritionRecord × NutritionStore :=
  let doc : NutritionRecord :=
    { user_id := (spreadOverride (some userId) nutritionData.user_id).getD userId
      data := nutritionData.payload }
  (doc, addDoc db freshId doc)

/-- firestore.js saveFitnessLog: add({ user_id: userId, ...fitnessData, ... }). -/
def saveFitnessLog (db : FitnessStore) (freshId userId : String)
    (fitnessData : ReqBody FitnessPayload) : FitnessRecord × FitnessStore :=
  let doc : FitnessRecord :=
    { user_id := (spreadOverride (some userId) fitnessData.user_id).getD userId
      data := fitnessData.payload }
  (doc, addDoc db freshId doc)

/-- firestore.js saveMentalHealthLog: add({ user_id: userId, ...mentalHealthData, ... }). -/
def saveMentalHealthLog (db : MentalHealthStore) (freshId userId : String)
    (mentalHealthData : ReqBody MentalHealthPayload) :
    MentalHealthRecord × MentalHealthStore :=
  let doc : MentalHealthRecord :=
    { user_id := (spreadOverride (some userId) mentalHealthData.user_id).getD userId
      data := mentalHealthData.payload }
  (doc, addDoc db freshId doc)

/-- firestore.js markInsightAsRead: doc(insightId).update({is_read: true, ...}).
The store's update fails on a nonexistent document; the service wraps
that failure into an error message, never into an ownership check. -/
def markInsightAsRead (db : InsightStore) (insightId : String) :
    Except String InsightStore :=
  match getDoc db insightId with
  | none => Except.error "Error marking insight as read: NOT_FOUND"
  | some _ => Except.ok (updateDoc db insightId fun r => { r with is_read := true })

/-! ## Route handlers (health.js and the AI insights router)

Each handler takes the caller identity req.userId produced by the
authentication middleware, the route parameters and sanitized body, and
returns the HTTP response together with the store it leaves behind. -/

/-- health.js POST /cycles: cycleData = { ...req.body, user_id: req.userId },
then saveCycle; responds 201 with the saved cycle and its phase. -/
def postCyclesHandler (db : CycleStore) (freshId uid : String) (raw : ReqBody Cycle)
    (now : Int) : Response (CycleRecord × Phase) × CycleStore :=
  let body := sanitizeRequestBody raw
  let cycleData : ReqBody Cycle := { body with user_id := spreadOverride body.user_id (some uid) }
  let saved := saveCycle db freshId uid cycleData
  (formatSuccessResponse (some (saved.1, calculateCyclePhase now (some saved.1.data)))
      "Cycle created successfully" HTTP_STATUS.CREATED,
   saved.2)

/-- health.js GET /cycles/:id: 404 when the id is unknown, 403 when the
stored owner differs from the caller, otherwise the cycle with its
computed phase. -/
def getCycleByIdHandler (db : CycleStore) (uid id : String) (now : Int) :
    Response (CycleRecord × Phase) × CycleStore :=
  match getCycleById db id with
  | none => (formatErrorResponse "Cycle not found" HTTP_STATUS.NOT_FOUND, db)
  | some cycle =>
    if cycle.user_id ≠ uid then
      (formatErrorResponse "Access denied to this cycle" HTTP_STATUS.FORBIDDEN, db)
    else
      (formatSuccessResponse (some (cycle, calculateCyclePhase now (some cycle.data)))
          "Cycle retrieved successfully" HTTP_STATUS.OK,
       db)

/-- health.js PUT /cycles/:id: fetch, 404 when absent, 403 when the owner
differs, otherwise updateCycle; the response carries the update payload
(the source returns { id, ...updateData }) with its phase. -/
def putCycleHandler (db : CycleStore) (uid id : String) (raw : ReqBody Cycle)
    (now : Int) : Response (Cycle × Phase) × CycleStore :=
  let body := sanitizeRequestBody raw
  match getCycleById db id with
  | none => (formatErrorResponse "Cycle not found" HTTP_STATUS.NOT_FOUND, db)
  | some existingCycle =>
    if existingCycle.user_id ≠ uid then
      (formatErrorResponse "Access denied to this cycle" HTTP_STATUS.FORBIDDEN, db)
    else
      (formatSuccessResponse (some (body.payload, calculateCyclePhase now (some body.payload)))
          "Cycle updated successfully" HTTP_STATUS.OK,
       updateCycle db id body)

/-- health.js DELETE /cycles/:id: fetch, 404 when absent, 403 when the
owner differs, otherwise deleteCycle and a success with null data. -/
def deleteCycleHandler (db : CycleStore) (uid id : String) :
    Response Unit × CycleStore :=
  match getCycleById db id with
  | none => (formatErrorResponse "Cycle not found" HTTP_STATUS.NOT_FOUND, db)
  | some existingCycle =>
    if existingCycle.user_id ≠ uid then
      (formatErrorResponse "Access denied to this cycle" HTTP_STATUS.FORBIDDEN, db)
    else
      (formatSuccessResponse none "Cycle deleted successfully" HTTP_STATUS.OK,
       deleteCycle db id)

/-- health.js POST /nutrition: nutritionData = { ...req.body,
user_id: req.userId, log_date: new Date(req.body.log_date) } (the date
conversion is the identity in this model), then saveNutritionLog. -/
def postNutritionHandler (db : NutritionStore) (freshId uid : String)
    (raw : ReqBody NutritionPayload) : Response NutritionRecord × NutritionStore :=
  let body := sanitizeRequestBody raw
  let nutritionData : ReqBody NutritionPayload :=
    { body with user_id := spreadOverride body.user_id (some uid) }
  let saved := saveNutritionLog db freshId uid nutritionData
  (formatSuccessResponse (some saved.1) "Nutrition log created successfully"
      HTTP_STATUS.CREATED,
   saved.2)

/-- health.js POST /fitness: fitnessData = { ...req.body,
user_id: req.userId, logged_at: new Date() }, then saveFitnessLog. -/
def postFitnessHandler (db : FitnessStore) (freshId uid : String)
    (raw : ReqBody FitnessPayload) : Response FitnessRecord × FitnessStore :=
  let body := sanitizeRequestBody raw
  let fitnessData : ReqBody FitnessPayload :=
    { body with user_id := spreadOverride body.user_id (some uid) }
  let saved := saveFitnessLog db freshId uid fitnessData
  (formatSuccessResponse (some saved.1) "Fitness log created successfully"
      HTTP_STATUS.CREATED,
   saved.2)

/-- health.js POST /mental-health: mentalHealthData = { ...req.body,
user_id: req.userId, logged_at: new Date() }, then saveMentalHealthLog. -/
def postMentalHealthHandler (db : MentalHealthStore) (freshId uid : String)
    (raw : ReqBody MentalHealthPayload) :
    Response MentalHealthRecord × MentalHealthStore :=
  let body := sanitizeRequestBody raw
  let mentalHealthData : ReqBody MentalHealthPayload :=
    { body with user_id := spreadOverride body.user_id (some uid) }
  let saved := saveMentalHealthLog db freshId uid mentalHealthData
  (formatSuccessResponse (some saved.1) "Mental health log created successfully"
      HTTP_STATUS.CREATED,
   saved.2)

/-- AI router PATCH /insights/:id/read: calls markInsightAsRead on the
raw route parameter with no ownership verification (the source carries
a TODO admitting the missing check); a service failure propagates
through asyncErrorHandler to the global error handler as a 500. -/
def markInsightReadHandler (db : InsightStore) (uid id : String) :
    Response Unit × InsightStore :=
  match markInsightAsRead db id with
  | Except.ok db2 =>
    (formatSuccessResponse none "Insight marked as read" HTTP_STATUS.OK, db2)
  | Except.error msg =>
    (formatErrorResponse msg HTTP_STATUS.INTERNAL_SERVER_ERROR, db)

/-- AI router DELETE /insights/:id: the source performs no firestore
call at all (a TODO says delete is unimplemented) and responds success. -/
def deleteInsightHandler (db : InsightStore) (uid id : String) :
    Response Unit × InsightStore :=
  (formatSuccessResponse none "Insight deleted successfully" HTTP_STATUS.OK, db)

/-! ## Authentication (auth.js and the firebase.js token wrapper) -/

/-- The decoded token the external identity verifier returns. -/
structure DecodedToken where
  uid : String
  email : String
  email_verified : Bool
  deriving DecidableEq, Repr

/-- The outcome of the external admin verifier on a token: success, or a
rejection carrying an optional error code such as auth/id-token-expired
or auth/project-not-found. -/
inductive AdminVerify where
  | ok (token : DecodedToken)
  | reject (code : Option String)
  deriving DecidableEq, Repr

/-- A thrown JavaScript Error as auth.js inspects it: its message and
its optional code property. -/
structure JsError where
  message : String
  code : Option String := none
  deriving DecidableEq, Repr

/-- firebase.js verifyIdToken: forwards to the admin verifier but
catches every failure (including its own not-initialized throw) and
rethrows a fresh plain Error whose message is fixed and which carries
no code property. -/
def verifyIdToken (initialized : Bool) (adminResult : AdminVerify) :
    Except JsError DecodedToken :=
  if !initialized then
    Except.error { message := "Invalid or expired token" }
  else
    match adminResult with
    | AdminVerify.ok t => Except.ok t
    | AdminVerify.reject _ => Except.error { message := "Invalid or expired token" }

/-- The result of the authentication middleware: either the request
proceeds with a verified user, or it is rejected with a status code. -/
inductive AuthResult where
  | authenticated (user : DecodedToken)
  | rejected (statusCode : Nat) (message : String)
  deriving DecidableEq, Repr

/-- auth.js catch block: chooses the message and status from the caught
error's code; note the branch that maps auth/project-not-found to 500. -/
def authCatch (e : JsError) : Nat × String :=
  if e.code = some "auth/id-token-expired" then
    (HTTP_STATUS.UNAUTHORIZED, "Token has expired. Please login again.")
  else if e.code = some "auth/invalid-id-token" then
    (HTTP_STATUS.UNAUTHORIZED, "Invalid token format. Please provide a valid Firebase token.")
  else if e.code = some "auth/project-not-found" then
    (HTTP_STATUS.INTERNAL_SERVER_ERROR, "Firebase project configuration error")
  else
    (HTTP_STATUS.UNAUTHORIZED, "Invalid or expired token")

/-- auth.js authenticateUser: requires an Authorization header starting
with Bearer, a nonempty token (the replace of the first Bearer prefix
is String.drop 7 after the startsWith test), and a verifier success;
every failure is answered directly with formatErrorResponse. -/
def authenticateUser (authHeader : Option String) (initialized : Bool)
    (adminResult : AdminVerify) : AuthResult :=
  match authHeader with
  | none =>
    AuthResult.rejected HTTP_STATUS.UNAUTHORIZED
      "Firebase token required. Please include Authorization header with Bearer token."
  | some h =>
    if !h.startsWith "Bearer " then
      AuthResult.rejected HTTP_STATUS.UNAUTHORIZED
        "Firebase token required. Please include Authorization header with Bearer token."
    else
      let token := h.drop 7
      if token = "" then
        AuthResult.rejected HTTP_STATUS.UNAUTHORIZED
          "Invalid token format. Token cannot be empty."
      else
        match verifyIdToken initialized adminResult with
        | Except.ok t => AuthResult.authenticated t
        | Except.error e =>
          let sm := authCatch e
          AuthResult.rejected sm.1 sm.2

/-- The status of a rejection, none when authentication succeeded. -/
def rejectionStatus : AuthResult → Option Nat
  | AuthResult.authenticated _ => none
  | AuthResult.rejected s _ => some s

/-! ## Theorems about the authorization and isolation discipline -/

/-- C3: every creation handler stores the record with the caller's
verified identifier as owner, whatever owner field the client body
supplies: the sanitizer deletes the client user_id and both object
spreads put the verified id last, so the client-supplied value is never
the one stored. -/
theorem createdRecord_owner_is_caller (dbC : CycleStore) (dbN : NutritionStore)
    (dbF : FitnessStore) (dbM : MentalHealthStore) (freshId uid : String) (now : Int)
    (rawC : ReqBody Cycle) (rawN : ReqBody NutritionPayload)
    (rawF : ReqBody FitnessPayload) (rawM : ReqBody MentalHealthPayload) :
    (getDoc (postCyclesHandler dbC freshId uid rawC now).2 freshId).map
        CycleRecord.user_id = some uid ∧
    (getDoc (postNutritionHandler dbN freshId uid rawN).2 freshId).map
        NutritionRecord.user_id = some uid ∧
    (getDoc (postFitnessHandler dbF freshId uid rawF).2 freshId).map
        FitnessRecord.user_id = some uid ∧
    (getDoc (postMentalHealthHandler dbM freshId uid rawM).2 freshId).map
        MentalHealthRecord.user_id = some uid := by
  refine ⟨?_, ?_, ?_, ?_⟩ <;>
    simp [postCyclesHandler, postNutritionHandler, postFitnessHandler,
      postMentalHealthHandler, saveCycle, saveNutritionLog, saveFitnessLog,
      saveMentalHealthLog, sanitizeRequestBody, spreadOverride, addDoc, getDoc]

/-- C4: on every by-id fetch path (read, update, delete of a cycle), a
nonexistent id is answered 404 Cycle not found for every caller, and an
existing record owned by someone else is answered 403. -/
theorem fetchById_existence_before_ownership (db : CycleStore) (uid id : String)
    (raw : ReqBody Cycle) (now : Int) :
    (getDoc db id = none →
        (getCycleByIdHandler db uid id now).1 =
          formatErrorResponse "Cycle not found" HTTP_STATUS.NOT_FOUND ∧
        (putCycleHandler db uid id raw now).1 =
          formatErrorResponse "Cycle not found" HTTP_STATUS.NOT_FOUND ∧
        (deleteCycleHandler db uid id).1 =
          formatErrorResponse "Cycle not found" HTTP_STATUS.NOT_FOUND) ∧
    (∀ r : CycleRecord, getDoc db id = some r → r.user_id ≠ uid →
        (getCycleByIdHandler db uid id now).1 =
          formatErrorResponse "Access denied to this cycle" HTTP_STATUS.FORBIDDEN ∧
        (putCycleHandler db uid id raw now).1 =
          formatErrorResponse "Access denied to this cycle" HTTP_STATUS.FORBIDDEN ∧
        (deleteCycleHandler db uid id).1 =
          formatErrorResponse "Access denied to this cycle" HTTP_STATUS.FORBIDDEN) := by
  constructor
  · intro h
    refine ⟨?_, ?_, ?_⟩ <;>
      simp [getCycleByIdHandler, putCycleHandler, deleteCycleHandler, getCycleById, h]
  · intro r hr hne
    refine ⟨?_, ?_, ?_⟩ <;>
      simp [getCycleByIdHandler, putCycleHandler, deleteCycleHandler, getCycleById, hr, hne]

/-- Witness for C4: an unknown id gives 404 and another user's cycle
gives 403 on the read path, at concrete inputs. -/
theorem fetchById_existence_before_ownership_witness :
    (getCycleByIdHandler [("c1", ({ user_id := "alice", data := {} } : CycleRecord))]
        "bob" "zzz" 0).1 =
      formatErrorResponse "Cycle not found" HTTP_STATUS.NOT_FOUND ∧
    (getCycleByIdHandler [("c1", ({ user_id := "alice", data := {} } : CycleRecord))]
        "bob" "c1" 0).1 =
      formatErrorResponse "Access denied to this cycle" HTTP_STATUS.FORBIDDEN :=
  ⟨((fetchById_existence_before_ownership
      [("c1", { user_id := "alice", data := {} })] "bob" "zzz" { payload := {} } 0).1
      (by decide)).1,
   ((fetchById_existence_before_ownership
      [("c1", { user_id := "alice", data := {} })] "bob" "c1" { payload := {} } 0).2
      { user_id := "alice", data := {} } (by decide) (by decide)).1⟩

/-- C5: an update or delete of a cycle attempted by a caller who is not
the stored owner is answered 403 and returns the store exactly as it
was: no state change on the forbidden attempt. -/
theorem forbidden_mutation_no_state_change (db : CycleStore) (uid id : String)
    (raw : ReqBody Cycle) (now : Int) (r : CycleRecord)
    (hr : getDoc db id = some r) (hne : r.user_id ≠ uid) :
    putCycleHandler db uid id raw now =
      (formatErrorResponse "Access denied to this cycle" HTTP_STATUS.FORBIDDEN, db) ∧
    deleteCycleHandler db uid id =
      (formatErrorResponse "Access denied to this cycle" HTTP_STATUS.FORBIDDEN, db) := by
  constructor <;>
    simp [putCycleHandler, deleteCycleHandler, getCycleById, hr, hne]

/-- Witness for C5: a concrete foreign-owned cycle is left untouched by
an update and a delete attempt. -/
theorem forbidden_mutation_no_state_change_witness :
    putCycleHandler [("c1", ({ user_id := "alice", data := {} } : CycleRecord))]
        "bob" "c1" { payload := {} } 0 =
      (formatErrorResponse "Access denied to this cycle" HTTP_STATUS.FORBIDDEN,
       [("c1", { user_id := "alice", data := {} })]) ∧
    deleteCycleHandler [("c1", ({ user_id := "alice", data := {} } : CycleRecord))]
        "bob" "c1" =
      (formatErrorResponse "Access denied to this cycle" HTTP_STATUS.FORBIDDEN,
       [("c1", { user_id := "alice", data := {} })]) :=
  forbidden_mutation_no_state_change
    [("c1", { user_id := "alice", data := {} })] "bob" "c1" { payload := {} } 0
    { user_id := "alice", data := {} } (by decide) (by decide)

/-- C1 counterevidence: the insights mark-as-read path performs the
update without comparing the stored owner to the caller.  At a concrete
store holding an insight owned by alice, a request authenticated as
mallory succeeds with 200 and flips the foreign record's read flag,
where the claim demands a ForbiddenError and no access. -/
theorem markInsightRead_no_ownership_check :
    markInsightReadHandler [("ins1", ({ user_id := "alice" } : InsightRecord))]
        "mallory" "ins1" =
      (formatSuccessResponse none "Insight marked as read" HTTP_STATUS.OK,
       [("ins1", { user_id := "alice", is_read := true })]) := by
  decide

/-- C9: the delete-insight route answers success for every store, caller
and id while performing no store operation: the store it returns is the
one it was given. -/
theorem deleteInsight_success_no_store_operation (db : InsightStore) (uid id : String) :
    deleteInsightHandler db uid id =
      (formatSuccessResponse none "Insight deleted successfully" HTTP_STATUS.OK, db) :=
  rfl

/-- C6: every authentication failure is surfaced with status 401: the
missing-header, malformed-header and empty-token checks answer 401
directly, and because the firebase wrapper rethrows every verifier
rejection as a plain error without a code, the catch block's non-401
branch (auth/project-not-found to 500) is unreachable, whatever the
external verifier answered. -/
theorem authenticationFailure_is_401 (authHeader : Option String) (initialized : Bool)
    (adminResult : AdminVerify) (s : Nat) (msg : String)
    (h : authenticateUser authHeader initialized adminResult = AuthResult.rejected s msg) :
    s = HTTP_STATUS.UNAUTHORIZED := by
  unfold authenticateUser verifyIdToken authCatch at h
  cases authHeader with
  | none => cases h; rfl
  | some hd =>
    by_cases hb : hd.startsWith "Bearer "
    · simp only [hb, Bool.not_true, Bool.false_eq_true, if_false] at h
      by_cases ht : hd.drop 7 = ""
      · simp only [ht, if_pos rfl] at h
        cases h; rfl
      · simp only [if_neg ht] at h
        cases initialized with
        | false => simp at h; exact h.1.symm
        | true =>
          cases adminResult with
          | ok t => simp at h
          | reject code => simp at h; exact h.1.symm
    · simp only [hb, Bool.not_false, if_true] at h
      cases h; rfl

/-- Witness for C6: a concrete rejected request (missing credential, the
external verifier standing ready to reject with the unknown-project
code) is answered 401. -/
theorem authenticationFailure_is_401_witness :
    401 = HTTP_STATUS.UNAUTHORIZED :=
  authenticationFailure_is_401 none true
    (AdminVerify.reject (some "auth/project-not-found")) 401
    "Firebase token required. Please include Authorization header with Bearer token."
    rfl

end Lunara
